import Mathlib

/-!
# EqOS — verification of the scheduler and game-theory engine

Shallow embedding of the EqOS kernel (Rust sources `src/config.rs`,
`src/task.rs`, `src/game.rs`, `src/scheduler.rs`) and proofs of the
specification's claims about it.

Modelling conventions:
* Rust unsigned integers (`u8`, `u32`, `u64`, `usize`) are modelled by `Nat`;
  signed `i32` by `Int`.  Rust signed division truncates toward zero, so `/`
  on `i32` is modelled by `Int.tdiv`; unsigned division is `Nat` division.
* The per-task stack memory (`stack`, `stack_pointer`) and the task entry
  function pointer are raw-memory artefacts of the Cortex-M port; no claim
  refers to them and they are omitted from the model.
* The TCB array `[TaskControlBlock; MAX_TASKS]` is modelled by a total
  function `Nat → TaskControlBlock`; the code only ever indexes it below
  `task_count ≤ MAX_TASKS`.
* Rust field names ending in `ratio` are renamed with a `pct` suffix
  (`global_cooperation_ratio` becomes `global_cooperation_pct`,
  the local `usage_ratio` becomes `usage_pct`); everything else keeps the
  source's names.
-/

namespace EqOS

/-! ## Configuration constants (`src/config.rs`) -/

def MAX_TASKS : Nat := 8

def DEFAULT_TIME_SLICE : Nat := 10

def MAX_CORES : Nat := 1

def STARVATION_THRESHOLD : Nat := 50

def STRATEGY_HYSTERESIS : Nat := 3

def EVAL_FREQUENCY : Nat := 10

/-! ## Task model (`src/task.rs`) -/

/-- Execution state of a task (`enum TaskState`). -/
inductive TaskState where
  | Ready
  | Running
  | Blocked
  | Suspended
  | Terminated
deriving DecidableEq, Repr

/-- Behavioral strategy of a task (`enum Strategy`). -/
inductive Strategy where
  | Cooperative
  | Selfish
deriving DecidableEq, Repr

/-- Static task configuration (`struct TaskConfig`). -/
structure TaskConfig where
  priority : Nat
  deadline_ticks : Nat
  wcet_ticks : Nat
  affinity_mask : Nat
  time_slice : Nat
deriving DecidableEq, Repr

/-- `TaskConfig::effective_time_slice`: the configured slice, falling back to
the system default when it is zero. -/
def TaskConfig.effective_time_slice (c : TaskConfig) : Nat :=
  if c.time_slice > 0 then c.time_slice else DEFAULT_TIME_SLICE

/-- Runtime payoff metrics (`struct PayoffMetrics`). -/
structure PayoffMetrics where
  cpu_ticks_used : Nat
  deadlines_met : Nat
  deadlines_missed : Nat
  voluntary_yields : Nat
  overruns : Nat
  consecutive_overruns : Nat
  cooperation_score : Int
  payoff : Int
  previous_payoff : Int
  decline_streak : Nat
  ticks_since_last_run : Nat
deriving DecidableEq, Repr

/-- `PayoffMetrics::new`: zeroed metrics with neutral cooperation score. -/
def PayoffMetrics.new : PayoffMetrics where
  cpu_ticks_used := 0
  deadlines_met := 0
  deadlines_missed := 0
  voluntary_yields := 0
  overruns := 0
  consecutive_overruns := 0
  cooperation_score := 100
  payoff := 0
  previous_payoff := 0
  decline_streak := 0
  ticks_since_last_run := 0

/-- Task Control Block (`struct TaskControlBlock`), without the raw stack
memory (see module docstring). -/
structure TaskControlBlock where
  id : Nat
  state : TaskState
  config : TaskConfig
  strategy : Strategy
  payoff : PayoffMetrics
  ticks_remaining : Nat
  total_ticks : Nat
  period_ticks : Nat
  active : Bool
deriving DecidableEq, Repr

/-- `TaskControlBlock::empty`: an unallocated TCB slot. -/
def TaskControlBlock.empty : TaskControlBlock where
  id := 0
  state := TaskState.Suspended
  config :=
    { priority := 0, deadline_ticks := 0, wcet_ticks := 0
      affinity_mask := 0x01, time_slice := 0 }
  strategy := Strategy.Cooperative
  payoff := PayoffMetrics.new
  ticks_remaining := 0
  total_ticks := 0
  period_ticks := 0
  active := false

/-- `TaskControlBlock::init`: initialize a TCB for a new task. -/
def TaskControlBlock.init (t : TaskControlBlock) (id : Nat) (config : TaskConfig)
    (strategy : Strategy) : TaskControlBlock :=
  { t with
    id := id
    state := TaskState.Ready
    config := config
    strategy := strategy
    payoff := PayoffMetrics.new
    ticks_remaining := config.effective_time_slice
    total_ticks := 0
    period_ticks := 0
    active := true }

/-- `TaskControlBlock::record_yield`: count a voluntary yield and boost the
cooperation score, capped at 500. -/
def TaskControlBlock.record_yield (t : TaskControlBlock) : TaskControlBlock :=
  { t with payoff :=
      { t.payoff with
        voluntary_yields := t.payoff.voluntary_yields + 1
        cooperation_score := min (t.payoff.cooperation_score + 10) 500 } }

/-- `TaskControlBlock::record_deadline_met`. -/
def TaskControlBlock.record_deadline_met (t : TaskControlBlock) : TaskControlBlock :=
  { t with payoff :=
      { t.payoff with
        deadlines_met := t.payoff.deadlines_met + 1
        consecutive_overruns := 0 } }

/-- `TaskControlBlock::record_deadline_missed`. -/
def TaskControlBlock.record_deadline_missed (t : TaskControlBlock) : TaskControlBlock :=
  { t with payoff :=
      { t.payoff with deadlines_missed := t.payoff.deadlines_missed + 1 } }

/-- `TaskControlBlock::record_overrun`: count an overrun and reduce the
cooperation score, floored at 0. -/
def TaskControlBlock.record_overrun (t : TaskControlBlock) : TaskControlBlock :=
  { t with payoff :=
      { t.payoff with
        overruns := t.payoff.overruns + 1
        consecutive_overruns := t.payoff.consecutive_overruns + 1
        cooperation_score := max (t.payoff.cooperation_score - 20) 0 } }

/-- `TaskControlBlock::is_runnable`: active and Ready. -/
def TaskControlBlock.is_runnable (t : TaskControlBlock) : Bool :=
  t.active && decide (t.state = TaskState.Ready)

/-- `TaskControlBlock::can_run_on_core`: affinity bit for the core is set. -/
def TaskControlBlock.can_run_on_core (t : TaskControlBlock) (core_id : Nat) : Bool :=
  decide (Nat.land t.config.affinity_mask (1 <<< core_id) ≠ 0)

/-- `TaskControlBlock::effective_priority`: base priority plus payoff / 100
(i32 division, truncating toward zero), floored at 0. -/
def TaskControlBlock.effective_priority (t : TaskControlBlock) : Int :=
  max ((t.config.priority : Int) + Int.tdiv t.payoff.payoff 100) 0

/-! ## Game engine (`src/game.rs`) -/

/-- Aggregate system metrics (`struct SystemMetrics`).  The Rust field
`global_cooperation_ratio` is called `global_cooperation_pct` here. -/
structure SystemMetrics where
  total_ticks : Nat
  active_tasks : Nat
  global_cooperation_pct : Nat
  overload : Bool
deriving DecidableEq, Repr

/-- `SystemMetrics::new`. -/
def SystemMetrics.new : SystemMetrics where
  total_ticks := 0
  active_tasks := 0
  global_cooperation_pct := 100
  overload := false

/-- Steps 1–5 of `compute_payoff` (`src/game.rs`): deadline compliance,
voluntary yields, consecutive-overrun penalty, and the CPU-fairness term.
The Rust local `usage_ratio` is called `usage_pct` here. -/
def compute_payoff_base (task : TaskControlBlock) (metrics : SystemMetrics) : Int :=
  let payoff : Int := 0
  let payoff := payoff + (task.payoff.deadlines_met : Int) * 100
  let payoff := payoff - (task.payoff.deadlines_missed : Int) * 200
  let payoff := payoff + (task.payoff.voluntary_yields : Int) * 50
  let overrun_count : Int := (task.payoff.consecutive_overruns : Int)
  let payoff := payoff - overrun_count * 150
  if metrics.active_tasks > 0 ∧ metrics.total_ticks > 0 then
    let fair_share : Nat := metrics.total_ticks / metrics.active_tasks
    let actual : Nat := task.payoff.cpu_ticks_used
    if fair_share > 0 then
      let usage_pct : Int := ((actual * 100 / fair_share : Nat) : Int)
      if usage_pct > 200 then
        payoff - (usage_pct - 200) * 2
      else if usage_pct < 50 then
        payoff + (50 - usage_pct)
      else payoff
    else payoff
  else payoff

/-- Steps 6–8 of `compute_payoff`: cooperation multiplier, global defection
penalty, cooperation-score blend. -/
def compute_payoff_tail (task : TaskControlBlock) (metrics : SystemMetrics)
    (payoff : Int) : Int :=
  let payoff :=
    if task.strategy = Strategy.Cooperative ∧ payoff > 0 then
      Int.tdiv (payoff * 3) 2
    else payoff
  let payoff :=
    if metrics.global_cooperation_pct < 50 then payoff - 100 else payoff
  payoff + Int.tdiv task.payoff.cooperation_score 2

/-- `compute_payoff` (`src/game.rs`): the composite per-task payoff score. -/
def compute_payoff (task : TaskControlBlock) (metrics : SystemMetrics) : Int :=
  compute_payoff_tail task metrics (compute_payoff_base task metrics)

/-- `estimate_alternative_payoff` (`src/game.rs`): payoff estimate under the
opposite strategy — base components with the multiplier flipped and the
fair-share term omitted. -/
def estimate_alternative_payoff (task : TaskControlBlock) (metrics : SystemMetrics) : Int :=
  let payoff : Int := 0
  let payoff := payoff + (task.payoff.deadlines_met : Int) * 100
  let payoff := payoff - (task.payoff.deadlines_missed : Int) * 200
  let payoff := payoff + (task.payoff.voluntary_yields : Int) * 50
  let payoff := payoff - (task.payoff.consecutive_overruns : Int) * 150
  let payoff :=
    match task.strategy with
    | Strategy.Cooperative => payoff
    | Strategy.Selfish =>
        if payoff > 0 then Int.tdiv (payoff * 3) 2 else payoff
  let payoff :=
    if metrics.global_cooperation_pct < 50 then payoff - 100 else payoff
  payoff + Int.tdiv task.payoff.cooperation_score 2

/-- `is_in_equilibrium` (`src/game.rs`): no active task in `[0, task_count)`
would gain more than 50 payoff units by switching strategy.  (The early
`return false` in the Rust loop is equivalent to this `List.all`, as the loop
body has no other effect.) -/
def is_in_equilibrium (tasks : Nat → TaskControlBlock) (task_count : Nat)
    (metrics : SystemMetrics) : Bool :=
  (List.range task_count).all fun i =>
    if (tasks i).active then
      let current_payoff := (tasks i).payoff.payoff
      let alt_payoff := estimate_alternative_payoff (tasks i) metrics
      decide (¬ alt_payoff > current_payoff + 50)
    else true

/-- The per-task body of `update_strategies` (`src/game.rs`): decline-streak
update and strategy flip under hysteresis. -/
def update_strategy_task (t : TaskControlBlock) : TaskControlBlock :=
  let current := t.payoff.payoff
  let previous := t.payoff.previous_payoff
  let t :=
    if current < previous then
      { t with payoff := { t.payoff with decline_streak := t.payoff.decline_streak + 1 } }
    else
      { t with payoff := { t.payoff with decline_streak := 0 } }
  let t :=
    if t.payoff.decline_streak ≥ STRATEGY_HYSTERESIS then
      { t with
        strategy :=
          match t.strategy with
          | Strategy.Cooperative => Strategy.Selfish
          | Strategy.Selfish => Strategy.Cooperative
        payoff := { t.payoff with decline_streak := 0 } }
    else t
  { t with payoff := { t.payoff with previous_payoff := current } }

/-- `update_strategies` (`src/game.rs`): apply `update_strategy_task` to every
active task in `[0, task_count)`. -/
def update_strategies (tasks : Nat → TaskControlBlock) (task_count : Nat) :
    Nat → TaskControlBlock :=
  fun i =>
    if i < task_count ∧ (tasks i).active = true then update_strategy_task (tasks i)
    else tasks i

/-! ## Scheduler (`src/scheduler.rs`) -/

/-- Scheduler state (`struct Scheduler`).  The TCB array is modelled as a
total function on `Nat` (only indices below `task_count ≤ MAX_TASKS` are ever
touched by the code). -/
structure Scheduler where
  tasks : Nat → TaskControlBlock
  current_task : Nat
  task_count : Nat
  metrics : SystemMetrics
  tick_count : Nat
  needs_reschedule : Bool

/-- `Scheduler::new`. -/
def Scheduler.new : Scheduler where
  tasks := fun _ => TaskControlBlock.empty
  current_task := 0
  task_count := 0
  metrics := SystemMetrics.new
  tick_count := 0
  needs_reschedule := false

/-- `Scheduler::create_task` (`src/scheduler.rs`).  Returns the Rust
`Result<usize, ()>` (the spec names the `Err(())` case `CapacityExceeded`)
together with the post-state.  The stack-frame preparation
(`init_task_stack`) only touches the omitted raw stack memory. -/
def Scheduler.create_task (s : Scheduler) (config : TaskConfig)
    (strategy : Strategy) : Except Unit Nat × Scheduler :=
  if s.task_count ≥ MAX_TASKS then
    (Except.error (), s)
  else
    let id := s.task_count
    let tasks' := fun j =>
      if j = id then (s.tasks id).init id config strategy else s.tasks j
    (Except.ok id, { s with tasks := tasks', task_count := s.task_count + 1 })

/-- First phase of `Scheduler::tick`: bump `tick_count` and update the
current task's counters, time slice, and WCET-overrun bookkeeping. -/
def Scheduler.tick_current_phase (s : Scheduler) : Scheduler :=
  let current := s.current_task
  if current < s.task_count ∧ (s.tasks current).active = true then
    let t := s.tasks current
    let t := { t with
      payoff := { t.payoff with cpu_ticks_used := t.payoff.cpu_ticks_used + 1 }
      total_ticks := t.total_ticks + 1
      period_ticks := t.period_ticks + 1 }
    let t :=
      if t.ticks_remaining > 0 then
        { t with ticks_remaining := t.ticks_remaining - 1 }
      else t
    if t.ticks_remaining = 0 then
      let t := { t with
        state := TaskState.Ready
        ticks_remaining := t.config.effective_time_slice }
      let t :=
        if t.config.wcet_ticks > 0 ∧ t.period_ticks > t.config.wcet_ticks then
          t.record_overrun
        else t
      { s with
        tasks := fun j => if j = current then t else s.tasks j
        needs_reschedule := true }
    else
      { s with tasks := fun j => if j = current then t else s.tasks j }
  else s

/-- Second phase of `Scheduler::tick`: bump `ticks_since_last_run` for every
active Ready task other than the current one. -/
def Scheduler.starvation_count_phase (s : Scheduler) : Scheduler :=
  { s with tasks := fun i =>
      if i < s.task_count ∧ i ≠ s.current_task ∧ (s.tasks i).active = true ∧
          (s.tasks i).state = TaskState.Ready then
        { s.tasks i with payoff :=
            { (s.tasks i).payoff with
              ticks_since_last_run := (s.tasks i).payoff.ticks_since_last_run + 1 } }
      else s.tasks i }

/-- The per-task body of the deadline sweep in `Scheduler::tick`. -/
def sweep_task (t : TaskControlBlock) : TaskControlBlock :=
  if t.config.deadline_ticks > 0 ∧ t.period_ticks ≥ t.config.deadline_ticks then
    let t :=
      if t.state = TaskState.Ready ∨ t.state = TaskState.Running then
        t.record_deadline_missed
      else t
    { t with period_ticks := 0 }
  else t

/-- Third phase of `Scheduler::tick`: the deadline sweep over every active
task in `[0, task_count)`. -/
def Scheduler.deadline_sweep (s : Scheduler) : Scheduler :=
  { s with tasks := fun i =>
      if i < s.task_count ∧ (s.tasks i).active = true then sweep_task (s.tasks i)
      else s.tasks i }

/-- `Scheduler::update_system_metrics`. -/
def Scheduler.update_system_metrics (s : Scheduler) : Scheduler :=
  let active :=
    ((List.range s.task_count).filter fun i => (s.tasks i).active).length
  let cooperative :=
    ((List.range s.task_count).filter fun i =>
      (s.tasks i).active && decide ((s.tasks i).strategy = Strategy.Cooperative)).length
  { s with metrics :=
      { total_ticks := s.tick_count
        active_tasks := active
        global_cooperation_pct := if active > 0 then cooperative * 100 / active else 100
        overload := decide (active > MAX_CORES) } }

/-- The payoff-recomputation loop of `Scheduler::evaluate_game`: store
`compute_payoff` for every active task in `[0, task_count)`. -/
def Scheduler.recompute_payoffs (s : Scheduler) : Scheduler :=
  { s with tasks := fun i =>
      if i < s.task_count ∧ (s.tasks i).active = true then
        { s.tasks i with payoff :=
            { (s.tasks i).payoff with
              payoff := compute_payoff (s.tasks i) s.metrics } }
      else s.tasks i }

/-- The equilibrium check of `Scheduler::evaluate_game`: update strategies
only when the system is not in equilibrium. -/
def Scheduler.strategy_phase (s : Scheduler) : Scheduler :=
  if is_in_equilibrium s.tasks s.task_count s.metrics then s
  else { s with tasks := update_strategies s.tasks s.task_count }

/-- Whether slot `i` currently triggers the starvation boost. -/
def Scheduler.starving (s : Scheduler) (i : Nat) : Bool :=
  decide (i < s.task_count ∧ (s.tasks i).active = true ∧
    (s.tasks i).payoff.ticks_since_last_run ≥ STARVATION_THRESHOLD)

/-- The starvation-prevention loop of `Scheduler::evaluate_game`: add 500
payoff to every starving task and request a reschedule if any exists. -/
def Scheduler.starvation_boost_phase (s : Scheduler) : Scheduler :=
  { s with
    tasks := fun i =>
      if s.starving i then
        { s.tasks i with payoff :=
            { (s.tasks i).payoff with payoff := (s.tasks i).payoff.payoff + 500 } }
      else s.tasks i
    needs_reschedule :=
      s.needs_reschedule || (List.range s.task_count).any s.starving }

/-- `Scheduler::evaluate_game`: refresh metrics, recompute payoffs, update
strategies when out of equilibrium, and apply starvation boosts. -/
def Scheduler.evaluate_game (s : Scheduler) : Scheduler :=
  s.update_system_metrics.recompute_payoffs.strategy_phase.starvation_boost_phase

/-- `Scheduler::tick` (`src/scheduler.rs`): tick bookkeeping, starvation
counters, deadline sweep, and the periodic game evaluation. -/
def Scheduler.tick (s : Scheduler) : Scheduler :=
  let s := { s with tick_count := s.tick_count + 1 }
  let s := s.tick_current_phase
  let s := s.starvation_count_phase
  let s := s.deadline_sweep
  if s.tick_count % EVAL_FREQUENCY = 0 then s.evaluate_game else s

/-- `i32::MIN`, the initial best-priority sentinel in `Scheduler::schedule`. -/
def i32_min : Int := -2147483648

/-- The starvation boost computed in the selection loop of
`Scheduler::schedule`: `2 × (ticks_since_last_run / STARVATION_THRESHOLD)`
once the threshold is reached, else 0. -/
def starvation_boost (t : TaskControlBlock) : Int :=
  if t.payoff.ticks_since_last_run ≥ STARVATION_THRESHOLD then
    ((t.payoff.ticks_since_last_run / STARVATION_THRESHOLD : Nat) : Int) * 2
  else 0

/-- The total priority computed in the selection loop of
`Scheduler::schedule`: effective priority plus starvation boost. -/
def total_prio (t : TaskControlBlock) : Int :=
  t.effective_priority + starvation_boost t

/-- One candidate step of the selection loop in `Scheduler::schedule`:
keep the accumulator unless slot `i` is runnable, core-0-affine, and has
strictly greater total priority. -/
def sched_candidate (s : Scheduler) (best : Nat × Int) (i : Nat) : Nat × Int :=
  if (s.tasks i).is_runnable && (s.tasks i).can_run_on_core 0 then
    if total_prio (s.tasks i) > best.2 then (i, total_prio (s.tasks i)) else best
  else best

/-- The selection loop of `Scheduler::schedule`: best (task, priority) pair
over slots `[0, task_count)`, starting from the idle fallback `(0, i32::MIN)`. -/
def Scheduler.pick_best (s : Scheduler) : Nat × Int :=
  (List.range s.task_count).foldl (sched_candidate s) (0, i32_min)

/-- The state-update half of `Scheduler::schedule`: demote the previously
running task, mark `best_task` Running with `ticks_since_last_run` zeroed,
set `current_task`, clear `needs_reschedule`. -/
def Scheduler.schedule_mark (s : Scheduler) (best_task : Nat) : Scheduler :=
  let prev := s.current_task
  let tasks1 : Nat → TaskControlBlock :=
    fun j =>
      if j = prev ∧ prev < s.task_count ∧ (s.tasks prev).state = TaskState.Running then
        { s.tasks prev with state := TaskState.Ready }
      else s.tasks j
  let tasks2 : Nat → TaskControlBlock :=
    fun j =>
      if j = best_task ∧ best_task < s.task_count then
        { tasks1 best_task with
          state := TaskState.Running
          payoff := { (tasks1 best_task).payoff with ticks_since_last_run := 0 } }
      else tasks1 j
  { s with
    tasks := tasks2
    current_task := best_task
    needs_reschedule := false }

/-- `Scheduler::schedule` (`src/scheduler.rs`): select the next task via the
priority scan, then apply the state updates.  Returns the selected index
with the post-state. -/
def Scheduler.schedule (s : Scheduler) : Nat × Scheduler :=
  (s.pick_best.1, s.schedule_mark s.pick_best.1)

/-- `Scheduler::yield_current` (`src/scheduler.rs`): record a voluntary yield
from the current task and request a reschedule. -/
def Scheduler.yield_current (s : Scheduler) : Scheduler :=
  let current := s.current_task
  if current < s.task_count ∧ (s.tasks current).active = true then
    let t := s.tasks current
    let t := { t with state := TaskState.Ready }
    let t := t.record_yield
    let t := { t with ticks_remaining := t.config.effective_time_slice }
    { s with
      tasks := fun j => if j = current then t else s.tasks j
      needs_reschedule := true }
  else s

/-! ## Reachable scheduler states

One step is any of the scheduler entry points reachable from the kernel API
and the ISRs: `tick` (SysTick), `schedule` (PendSV), `yield_current`
(`kernel::yield_task`), `create_task` (`kernel::create_task`). -/

/-- One scheduler transition. -/
inductive SchedStep : Scheduler → Scheduler → Prop where
  | tick (s : Scheduler) : SchedStep s s.tick
  | schedule (s : Scheduler) : SchedStep s s.schedule.2
  | yield_current (s : Scheduler) : SchedStep s s.yield_current
  | create_task (s : Scheduler) (config : TaskConfig) (strategy : Strategy) :
      SchedStep s (s.create_task config strategy).2

/-- States reachable from the freshly constructed scheduler. -/
def Reachable (s : Scheduler) : Prop :=
  Relation.ReflTransGen SchedStep Scheduler.new s

/-! ## Spec-side definitions

These follow the specification's wording (spec.md §4.2) rather than the
source, for the refinement claims about `compute_payoff` and
`is_in_equilibrium`. -/

/-- Spec steps 1–4: `+100` per deadline met, `−200` per deadline missed,
`+50` per voluntary yield, `−150` per consecutive overrun. -/
def spec_base_score (t : TaskControlBlock) : Int :=
  100 * (t.payoff.deadlines_met : Int) - 200 * (t.payoff.deadlines_missed : Int)
    + 50 * (t.payoff.voluntary_yields : Int)
    - 150 * (t.payoff.consecutive_overruns : Int)

/-- Spec fair share: `total_ticks / active_tasks` (integer division). -/
def spec_fair_share (m : SystemMetrics) : Nat :=
  m.total_ticks / m.active_tasks

/-- Spec usage percentage: `100 × cpu_ticks_used / fair` (integer). -/
def spec_usage_pct (t : TaskControlBlock) (m : SystemMetrics) : Int :=
  ((t.payoff.cpu_ticks_used * 100 / spec_fair_share m : Nat) : Int)

/-- Spec step 5, the fair-share term: active only when
`active_tasks > 0 ∧ total_ticks > 0 ∧ fair > 0`; subtract `2 × (pct − 200)`
when `pct > 200`, add `50 − pct` when `pct < 50`. -/
def spec_fair_adjust (t : TaskControlBlock) (m : SystemMetrics) : Int :=
  if m.active_tasks > 0 ∧ m.total_ticks > 0 ∧ spec_fair_share m > 0 then
    if spec_usage_pct t m > 200 then -(2 * (spec_usage_pct t m - 200))
    else if spec_usage_pct t m < 50 then 50 - spec_usage_pct t m
    else 0
  else 0

/-- Spec steps 1–8 of the payoff computation, in the spec's stated order:
base score, fair-share term, cooperation multiplier on a strictly positive
running total, global defection penalty, cooperation-score blend. -/
def spec_payoff (t : TaskControlBlock) (m : SystemMetrics) : Int :=
  let p := spec_base_score t + spec_fair_adjust t m
  let p := if t.strategy = Strategy.Cooperative ∧ p > 0 then Int.tdiv (p * 3) 2 else p
  let p := if m.global_cooperation_pct < 50 then p - 100 else p
  p + Int.tdiv t.payoff.cooperation_score 2

/-- Spec alternative payoff: components 1–4, the *opposite* strategy's
multiplier rule (Cooperative drops the multiplier, Selfish applies 3/2 to a
positive running total), the global defection penalty, and the
cooperation-score blend; the fair-share term is omitted. -/
def spec_alt_payoff (t : TaskControlBlock) (m : SystemMetrics) : Int :=
  let p := spec_base_score t
  let p :=
    match t.strategy with
    | Strategy.Cooperative => p
    | Strategy.Selfish => if p > 0 then Int.tdiv (p * 3) 2 else p
  let p := if m.global_cooperation_pct < 50 then p - 100 else p
  p + Int.tdiv t.payoff.cooperation_score 2

/-! ## Division-safety apparatus (claim about division by zero)

`checkedDiv` makes every division on the metrics explicit: it fails instead
of relying on a total-division convention, so proving the checked variant
always succeeds shows the source's guards really do prevent division by
zero. -/

/-- Division that fails on a zero divisor. -/
def checkedDiv (a b : Nat) : Option Nat :=
  if b = 0 then none else some (a / b)

/-- `compute_payoff` steps 1–4 only (fair-share term skipped). -/
def compute_payoff_base_nofair (t : TaskControlBlock) : Int :=
  let payoff : Int := 0
  let payoff := payoff + (t.payoff.deadlines_met : Int) * 100
  let payoff := payoff - (t.payoff.deadlines_missed : Int) * 200
  let payoff := payoff + (t.payoff.voluntary_yields : Int) * 50
  let payoff := payoff - (t.payoff.consecutive_overruns : Int) * 150
  payoff

/-- `compute_payoff_base` with its two metric divisions made explicit via
`checkedDiv`. -/
def compute_payoff_base_checked (t : TaskControlBlock) (m : SystemMetrics) :
    Option Int :=
  let payoff := compute_payoff_base_nofair t
  if m.active_tasks > 0 ∧ m.total_ticks > 0 then
    (checkedDiv m.total_ticks m.active_tasks).bind fun fair_share =>
      if fair_share > 0 then
        (checkedDiv (t.payoff.cpu_ticks_used * 100) fair_share).map fun u =>
          if (u : Int) > 200 then payoff - ((u : Int) - 200) * 2
          else if (u : Int) < 50 then payoff + (50 - (u : Int))
          else payoff
      else some payoff
  else some payoff

/-- `compute_payoff` with explicit checked divisions. -/
def compute_payoff_checked (t : TaskControlBlock) (m : SystemMetrics) :
    Option Int :=
  (compute_payoff_base_checked t m).map (compute_payoff_tail t m)

/-! ## Concrete states used to settle the remaining claims -/

/-- A TCB whose cooperation score sits at the 500 cap. -/
def tcb_cap : TaskControlBlock :=
  { TaskControlBlock.empty with
    payoff := { PayoffMetrics.new with cooperation_score := 500 } }

/-- A scheduler with one active Ready task that is 2 ticks past its
deadline of 5, with 2 misses already recorded. -/
def sched_deadline : Scheduler :=
  { Scheduler.new with
    task_count := 1
    tasks := fun _ =>
      { TaskControlBlock.empty with
        state := TaskState.Ready
        active := true
        period_ticks := 7
        config := { TaskControlBlock.empty.config with deadline_ticks := 5 }
        payoff := { PayoffMetrics.new with deadlines_missed := 2 } } }

/-- Invariant of the selection scan: the accumulator is still the idle
fallback `(0, i32::MIN)`, or it names a runnable, core-0-affine slot below
`task_count` with nonnegative priority. -/
def good_pick (s : Scheduler) (p : Nat × Int) : Prop :=
  p = (0, i32_min) ∨
    (p.1 < s.task_count ∧ (s.tasks p.1).is_runnable = true ∧
      (s.tasks p.1).can_run_on_core 0 = true ∧ 0 ≤ p.2)

/-- Scheduler with two active Ready tasks (priorities 5 and 3), current 0. -/
def sched_two : Scheduler :=
  { Scheduler.new with
    task_count := 2
    tasks := fun i =>
      if i = 0 then
        { TaskControlBlock.empty with
          state := TaskState.Ready
          active := true
          config := { TaskControlBlock.empty.config with priority := 5 } }
      else if i = 1 then
        { TaskControlBlock.empty with
          state := TaskState.Ready
          active := true
          config := { TaskControlBlock.empty.config with priority := 3 } }
      else TaskControlBlock.empty }

/-- Scheduler where task 0 is active Ready (priority 5) and task 1 is
active Running, with `current_task = 0`. -/
def sched_stray_running : Scheduler :=
  { Scheduler.new with
    task_count := 2
    tasks := fun i =>
      if i = 0 then
        { TaskControlBlock.empty with
          state := TaskState.Ready
          active := true
          config := { TaskControlBlock.empty.config with priority := 5 } }
      else if i = 1 then
        { TaskControlBlock.empty with
          state := TaskState.Running
          active := true }
      else TaskControlBlock.empty }

/-- Scheduler with `task_count = 0` whose slot 0 carries a nonzero
`ticks_since_last_run`. -/
def sched_zero_tasks : Scheduler :=
  { Scheduler.new with
    tasks := fun _ =>
      { TaskControlBlock.empty with
        payoff := { PayoffMetrics.new with ticks_since_last_run := 7 } } }

/-- Scheduler with a single active Ready core-0 task. -/
def sched_one : Scheduler :=
  { Scheduler.new with
    task_count := 1
    tasks := fun _ =>
      { TaskControlBlock.empty with
        state := TaskState.Ready
        active := true } }

/-! ## The cooperation-score range invariant -/

/-- A TCB's cooperation score lies in `[0, 500]`. -/
def coop_in_range (t : TaskControlBlock) : Prop :=
  0 ≤ t.payoff.cooperation_score ∧ t.payoff.cooperation_score ≤ 500

/-- Every slot's cooperation score lies in `[0, 500]`. -/
def CoopInv (s : Scheduler) : Prop := ∀ i, coop_in_range (s.tasks i)

/-! ## Supporting lemmas for the game-engine claims -/

lemma compute_payoff_base_eq_spec (t : TaskControlBlock) (m : SystemMetrics) :
    compute_payoff_base t m = spec_base_score t + spec_fair_adjust t m := by
  simp only [compute_payoff_base, spec_base_score, spec_fair_adjust,
    spec_usage_pct, spec_fair_share]
  split_ifs <;> omega

/-- C1: for every TCB and SystemMetrics, `compute_payoff` accumulates its
result in exactly the specified order: the four base components, then the
guarded fair-share term, then the 3/2 cooperation multiplier on a strictly
positive running total, then the global defection penalty, and finally the
cooperation-score blend — i.e. it coincides with the step-by-step
specification `spec_payoff`. -/
theorem compute_payoff_eq_spec_payoff (t : TaskControlBlock) (m : SystemMetrics) :
    compute_payoff t m = spec_payoff t m := by
  unfold compute_payoff spec_payoff compute_payoff_tail
  rw [compute_payoff_base_eq_spec]

lemma estimate_alternative_payoff_eq_spec (t : TaskControlBlock) (m : SystemMetrics) :
    estimate_alternative_payoff t m = spec_alt_payoff t m := by
  have hb : 0 + (t.payoff.deadlines_met : Int) * 100
      - (t.payoff.deadlines_missed : Int) * 200
      + (t.payoff.voluntary_yields : Int) * 50
      - (t.payoff.consecutive_overruns : Int) * 150 = spec_base_score t := by
    unfold spec_base_score; ring
  unfold estimate_alternative_payoff spec_alt_payoff
  simp only [hb]

/-- C2: `is_in_equilibrium` returns true iff, for every active task among
slots `[0, task_count)`, the alternative payoff (base components 1–4, the
opposite strategy's multiplier rule, the global defection penalty, and
`cooperation_score / 2`, with the fair-share term omitted) does not exceed
the task's stored payoff by more than 50. -/
theorem is_in_equilibrium_iff_spec (tasks : Nat → TaskControlBlock)
    (task_count : Nat) (m : SystemMetrics) :
    is_in_equilibrium tasks task_count m = true ↔
      ∀ i < task_count, (tasks i).active = true →
        spec_alt_payoff (tasks i) m ≤ (tasks i).payoff.payoff + 50 := by
  unfold is_in_equilibrium
  simp only [List.all_eq_true, List.mem_range]
  constructor
  · intro h i hi hact
    have h2 := h i hi
    rw [if_pos hact, decide_eq_true_eq, gt_iff_lt, not_lt,
      estimate_alternative_payoff_eq_spec] at h2
    exact h2
  · intro h i hi
    by_cases hact : (tasks i).active = true
    · rw [if_pos hact, decide_eq_true_eq, gt_iff_lt, not_lt,
        estimate_alternative_payoff_eq_spec]
      exact h i hi hact
    · rw [if_neg hact]

lemma checkedDiv_of_ne (a b : Nat) (h : ¬ b = 0) :
    checkedDiv a b = some (a / b) := by
  unfold checkedDiv
  rw [if_neg h]

lemma compute_payoff_base_checked_eq_some (t : TaskControlBlock)
    (m : SystemMetrics) :
    compute_payoff_base_checked t m = some (compute_payoff_base t m) := by
  simp only [compute_payoff_base_checked, compute_payoff_base,
    compute_payoff_base_nofair]
  by_cases hA : m.active_tasks > 0 ∧ m.total_ticks > 0
  · rw [if_pos hA, if_pos hA, checkedDiv_of_ne _ _ (by omega), Option.some_bind]
    by_cases hf : m.total_ticks / m.active_tasks > 0
    · rw [if_pos hf, if_pos hf, checkedDiv_of_ne _ _ (by omega)]
      rfl
    · rw [if_neg hf, if_neg hf]
  · rw [if_neg hA, if_neg hA]

lemma compute_payoff_checked_eq_some (t : TaskControlBlock) (m : SystemMetrics) :
    compute_payoff_checked t m = some (compute_payoff t m) := by
  unfold compute_payoff_checked compute_payoff
  rw [compute_payoff_base_checked_eq_some]
  rfl

lemma compute_payoff_base_degenerate (t : TaskControlBlock) (m : SystemMetrics)
    (h : m.active_tasks = 0 ∨ m.total_ticks = 0 ∨
      m.total_ticks / m.active_tasks = 0) :
    compute_payoff_base t m = compute_payoff_base_nofair t := by
  simp only [compute_payoff_base, compute_payoff_base_nofair]
  split_ifs <;> omega

/-- C8: `compute_payoff` never divides by zero — with `active_tasks = 0` or
`total_ticks = 0` (and likewise when the integer fair share is 0) the
fair-share term is skipped: the checked-division variant still returns a
result, equal to the payoff computed without the fair-share term. -/
theorem compute_payoff_no_div_by_zero (t : TaskControlBlock) (m : SystemMetrics)
    (h : m.active_tasks = 0 ∨ m.total_ticks = 0 ∨
      m.total_ticks / m.active_tasks = 0) :
    compute_payoff_checked t m
        = some (compute_payoff_tail t m (compute_payoff_base_nofair t)) ∧
      compute_payoff t m = compute_payoff_tail t m (compute_payoff_base_nofair t) := by
  have h2 := compute_payoff_base_degenerate t m h
  refine ⟨?_, ?_⟩
  · rw [compute_payoff_checked_eq_some]
    unfold compute_payoff
    rw [h2]
  · unfold compute_payoff
    rw [h2]

/-- Witness for C8 at the empty TCB and the fresh metrics
(`active_tasks = 0`). -/
theorem compute_payoff_no_div_by_zero_witness :
    compute_payoff_checked TaskControlBlock.empty SystemMetrics.new
        = some (compute_payoff_tail TaskControlBlock.empty SystemMetrics.new
            (compute_payoff_base_nofair TaskControlBlock.empty)) ∧
      compute_payoff TaskControlBlock.empty SystemMetrics.new
        = compute_payoff_tail TaskControlBlock.empty SystemMetrics.new
            (compute_payoff_base_nofair TaskControlBlock.empty) :=
  compute_payoff_no_div_by_zero TaskControlBlock.empty SystemMetrics.new
    (Or.inl rfl)

/-- C5: `create_task` fails with `CapacityExceeded` (the Rust `Err(())`) iff
`task_count ≥ MAX_TASKS`, in which case the whole scheduler state is
unchanged; otherwise it returns `Ok(task_count)`, initializes that slot
active and Ready with the given config and strategy, increments `task_count`
by one, and touches nothing else. -/
theorem create_task_spec (s : Scheduler) (config : TaskConfig)
    (strategy : Strategy) :
    ((s.create_task config strategy).1 = Except.error () ↔
        s.task_count ≥ MAX_TASKS) ∧
      (s.task_count ≥ MAX_TASKS → (s.create_task config strategy).2 = s) ∧
      (s.task_count < MAX_TASKS →
        (s.create_task config strategy).1 = Except.ok s.task_count ∧
        (s.create_task config strategy).2.task_count = s.task_count + 1 ∧
        ((s.create_task config strategy).2.tasks s.task_count).active = true ∧
        ((s.create_task config strategy).2.tasks s.task_count).state
            = TaskState.Ready ∧
        ((s.create_task config strategy).2.tasks s.task_count).config = config ∧
        ((s.create_task config strategy).2.tasks s.task_count).strategy
            = strategy ∧
        (∀ j, j ≠ s.task_count →
          (s.create_task config strategy).2.tasks j = s.tasks j) ∧
        (s.create_task config strategy).2.current_task = s.current_task ∧
        (s.create_task config strategy).2.metrics = s.metrics ∧
        (s.create_task config strategy).2.tick_count = s.tick_count ∧
        (s.create_task config strategy).2.needs_reschedule
            = s.needs_reschedule) := by
  by_cases h : s.task_count ≥ MAX_TASKS
  · refine ⟨?_, fun _ => ?_, fun hlt => absurd hlt (by omega)⟩
    · simp [Scheduler.create_task, if_pos h, h]
    · simp [Scheduler.create_task, if_pos h]
  · refine ⟨?_, fun hge => absurd hge h, fun _ => ?_⟩
    · simp [Scheduler.create_task, if_neg h, h]
    · have hother : ∀ j, j ≠ s.task_count →
          (s.create_task config strategy).2.tasks j = s.tasks j := by
        intro j hj
        simp [Scheduler.create_task, if_neg h, hj]
      exact ⟨by simp [Scheduler.create_task, if_neg h],
        by simp [Scheduler.create_task, if_neg h],
        by simp [Scheduler.create_task, if_neg h, TaskControlBlock.init],
        by simp [Scheduler.create_task, if_neg h, TaskControlBlock.init],
        by simp [Scheduler.create_task, if_neg h, TaskControlBlock.init],
        by simp [Scheduler.create_task, if_neg h, TaskControlBlock.init],
        hother,
        by simp [Scheduler.create_task, if_neg h],
        by simp [Scheduler.create_task, if_neg h],
        by simp [Scheduler.create_task, if_neg h],
        by simp [Scheduler.create_task, if_neg h]⟩

/-- Witness for C5 at the fresh scheduler (`task_count = 0 < MAX_TASKS`). -/
theorem create_task_spec_witness :
    (Scheduler.new.create_task TaskControlBlock.empty.config
        Strategy.Selfish).1 = Except.ok 0 ∧
      (Scheduler.new.create_task TaskControlBlock.empty.config
        Strategy.Selfish).2.task_count = 1 := by
  have h := create_task_spec Scheduler.new TaskControlBlock.empty.config
    Strategy.Selfish
  have h2 := h.2.2 (by decide)
  exact ⟨h2.1, h2.2.1⟩

/-- C10: when the current task's slot is not active or `current_task` is not
below `task_count`, `yield_current` leaves the entire scheduler state
unchanged. -/
theorem yield_current_frame (s : Scheduler)
    (h : s.task_count ≤ s.current_task ∨ (s.tasks s.current_task).active = false) :
    s.yield_current = s := by
  simp only [Scheduler.yield_current]
  rw [if_neg]
  rintro ⟨h1, h2⟩
  rcases h with h | h
  · omega
  · rw [h2] at h
    exact Bool.noConfusion h

/-- Witness for C10 at the fresh scheduler (`task_count = 0`). -/
theorem yield_current_frame_witness : Scheduler.new.yield_current = Scheduler.new :=
  yield_current_frame Scheduler.new (Or.inl (Nat.zero_le 0))

/-- C9 counterexample: at `cooperation_score = 500` the yield's `+10` is
absorbed by the cap, so `record_yield` then `record_overrun` nets `−20` —
the score drops to 480, not the claimed `−10`-clamped 490. -/
theorem yield_then_overrun_counterexample :
    (tcb_cap.record_yield.record_overrun).payoff.cooperation_score = 480 ∧
      min (max (tcb_cap.payoff.cooperation_score - 10) 0) 500 = 490 ∧
      (tcb_cap.record_yield.record_overrun).payoff.cooperation_score ≠
        min (max (tcb_cap.payoff.cooperation_score - 10) 0) 500 := by
  refine ⟨rfl, rfl, ?_⟩
  decide

/-- C9 amended: on a TCB whose cooperation score is at most 490 (so the
`+10` does not hit the 500 cap), `record_yield` then `record_overrun`
changes `cooperation_score` by a net of `−10`, clamped below at 0 (the
result `max (score − 10) 0` also equals the `[0, 500]` clamp of
`score − 10`, since `score − 10 ≤ 480`). -/
theorem yield_then_overrun_net (t : TaskControlBlock)
    (h : t.payoff.cooperation_score ≤ 490) :
    (t.record_yield.record_overrun).payoff.cooperation_score
      = max (t.payoff.cooperation_score - 10) 0 := by
  simp only [TaskControlBlock.record_yield, TaskControlBlock.record_overrun]
  omega

/-- Witness for C9 (amended) at the empty TCB (score 100). -/
theorem yield_then_overrun_net_witness :
    TaskControlBlock.empty.payoff.cooperation_score ≤ 490 ∧
      (TaskControlBlock.empty.record_yield.record_overrun).payoff.cooperation_score
        = max (TaskControlBlock.empty.payoff.cooperation_score - 10) 0 :=
  ⟨by decide, yield_then_overrun_net TaskControlBlock.empty (by decide)⟩

/-- C7: the deadline sweep inside `tick` visits every active task in
`[0, task_count)`: when `deadline_ticks > 0` and `period_ticks ≥
deadline_ticks`, a deadline miss is recorded exactly when the task is Ready
or Running and `period_ticks` is reset to 0 regardless of state; a task with
`deadline_ticks = 0` is left completely unchanged, whatever its
`period_ticks`. -/
theorem deadline_sweep_spec (s : Scheduler) (i : Nat)
    (hi : i < s.task_count) (hact : (s.tasks i).active = true) :
    (0 < (s.tasks i).config.deadline_ticks →
      (s.tasks i).config.deadline_ticks ≤ (s.tasks i).period_ticks →
      (s.deadline_sweep.tasks i).payoff.deadlines_missed
          = (s.tasks i).payoff.deadlines_missed +
            (if (s.tasks i).state = TaskState.Ready ∨
                (s.tasks i).state = TaskState.Running then 1 else 0) ∧
        (s.deadline_sweep.tasks i).period_ticks = 0) ∧
    ((s.tasks i).config.deadline_ticks = 0 →
      s.deadline_sweep.tasks i = s.tasks i) := by
  have hsel : s.deadline_sweep.tasks i = sweep_task (s.tasks i) := by
    simp only [Scheduler.deadline_sweep]
    rw [if_pos ⟨hi, hact⟩]
  constructor
  · intro hd hp
    rw [hsel]
    unfold sweep_task
    rw [if_pos ⟨hd, hp⟩]
    by_cases hst : (s.tasks i).state = TaskState.Ready ∨
        (s.tasks i).state = TaskState.Running
    · rw [if_pos hst, if_pos hst]
      exact ⟨rfl, rfl⟩
    · rw [if_neg hst, if_neg hst]
      exact ⟨rfl, rfl⟩
  · intro hd
    rw [hsel]
    unfold sweep_task
    rw [if_neg]
    omega

/-- Witness for C7 on `sched_deadline`: the miss is recorded and the period
is reset. -/
theorem deadline_sweep_spec_witness :
    (sched_deadline.deadline_sweep.tasks 0).payoff.deadlines_missed
        = (sched_deadline.tasks 0).payoff.deadlines_missed +
          (if (sched_deadline.tasks 0).state = TaskState.Ready ∨
              (sched_deadline.tasks 0).state = TaskState.Running then 1 else 0) ∧
      (sched_deadline.deadline_sweep.tasks 0).period_ticks = 0 :=
  (deadline_sweep_spec sched_deadline 0 (by decide) (by decide)).1
    (by decide) (by decide)

/-! ## Lemmas about the selection scan (`Scheduler::schedule`) -/

lemma effective_priority_nonneg (t : TaskControlBlock) :
    0 ≤ t.effective_priority :=
  le_max_right _ _

lemma total_prio_nonneg (t : TaskControlBlock) : 0 ≤ total_prio t := by
  unfold total_prio starvation_boost
  have h := effective_priority_nonneg t
  split_ifs with h2
  · have : (0 : Int) ≤ ((t.payoff.ticks_since_last_run / STARVATION_THRESHOLD : Nat) : Int) * 2 := by
      positivity
    omega
  · omega

lemma runnable_state (t : TaskControlBlock) (h : t.is_runnable = true) :
    t.state = TaskState.Ready := by
  unfold TaskControlBlock.is_runnable at h
  rw [Bool.and_eq_true, decide_eq_true_eq] at h
  exact h.2

lemma runnable_active (t : TaskControlBlock) (h : t.is_runnable = true) :
    t.active = true := by
  unfold TaskControlBlock.is_runnable at h
  rw [Bool.and_eq_true] at h
  exact h.1

lemma sched_candidate_good (s : Scheduler) (acc : Nat × Int) (i : Nat)
    (hi : i < s.task_count) (hacc : good_pick s acc) :
    good_pick s (sched_candidate s acc i) := by
  simp only [sched_candidate]
  by_cases hc : ((s.tasks i).is_runnable && (s.tasks i).can_run_on_core 0) = true
  · rw [if_pos hc]
    rw [Bool.and_eq_true] at hc
    by_cases hgt : total_prio (s.tasks i) > acc.2
    · rw [if_pos hgt]
      exact Or.inr ⟨hi, hc.1, hc.2, total_prio_nonneg _⟩
    · rw [if_neg hgt]
      exact hacc
  · rw [if_neg hc]
    exact hacc

lemma foldl_good (s : Scheduler) (l : List Nat) (acc : Nat × Int)
    (hl : ∀ i ∈ l, i < s.task_count) (hacc : good_pick s acc) :
    good_pick s (l.foldl (sched_candidate s) acc) := by
  induction l generalizing acc with
  | nil => exact hacc
  | cons a l ih =>
      rw [List.foldl_cons]
      exact ih (sched_candidate s acc a)
        (fun i hi => hl i (List.mem_cons_of_mem a hi))
        (sched_candidate_good s acc a (hl a (List.mem_cons_self a l)) hacc)

lemma pick_best_good (s : Scheduler) : good_pick s s.pick_best :=
  foldl_good s _ _ (fun _ hi => List.mem_range.mp hi) (Or.inl rfl)

lemma sched_candidate_snd_mono (s : Scheduler) (acc : Nat × Int) (i : Nat) :
    acc.2 ≤ (sched_candidate s acc i).2 := by
  simp only [sched_candidate]
  split_ifs with h1 h2
  · exact le_of_lt h2
  · exact le_refl _
  · exact le_refl _

lemma foldl_snd_mono (s : Scheduler) (l : List Nat) (acc : Nat × Int) :
    acc.2 ≤ (l.foldl (sched_candidate s) acc).2 := by
  induction l generalizing acc with
  | nil => exact le_refl _
  | cons a l ih => exact le_trans (sched_candidate_snd_mono s acc a) (ih _)

lemma sched_candidate_hit (s : Scheduler) (acc : Nat × Int) (i : Nat)
    (h1 : (s.tasks i).is_runnable = true)
    (h2 : (s.tasks i).can_run_on_core 0 = true) :
    0 ≤ (sched_candidate s acc i).2 := by
  simp only [sched_candidate]
  have hc : ((s.tasks i).is_runnable && (s.tasks i).can_run_on_core 0) = true := by
    rw [Bool.and_eq_true]
    exact ⟨h1, h2⟩
  rw [if_pos hc]
  by_cases hgt : total_prio (s.tasks i) > acc.2
  · rw [if_pos hgt]
    exact total_prio_nonneg _
  · rw [if_neg hgt]
    have := total_prio_nonneg (s.tasks i)
    omega

lemma foldl_hit (s : Scheduler) (l : List Nat) (acc : Nat × Int)
    (h : ∃ i ∈ l, (s.tasks i).is_runnable = true ∧
      (s.tasks i).can_run_on_core 0 = true) :
    0 ≤ (l.foldl (sched_candidate s) acc).2 := by
  induction l generalizing acc with
  | nil => exact absurd h (by simp)
  | cons a l ih =>
      obtain ⟨i, hmem, h1, h2⟩ := h
      rcases List.mem_cons.mp hmem with rfl | hmem
      · exact le_trans (sched_candidate_hit s acc i h1 h2)
          (foldl_snd_mono s l _)
      · exact ih _ ⟨i, hmem, h1, h2⟩

lemma pick_best_pos (s : Scheduler)
    (h : ∃ i, i < s.task_count ∧ (s.tasks i).is_runnable = true ∧
      (s.tasks i).can_run_on_core 0 = true) :
    0 ≤ s.pick_best.2 := by
  obtain ⟨i, hi, h1, h2⟩ := h
  exact foldl_hit s _ _ ⟨i, List.mem_range.mpr hi, h1, h2⟩

lemma sched_candidate_skip (s : Scheduler) (acc : Nat × Int) (i : Nat)
    (h : ¬ ((s.tasks i).is_runnable = true ∧
      (s.tasks i).can_run_on_core 0 = true)) :
    sched_candidate s acc i = acc := by
  simp only [sched_candidate]
  rw [if_neg]
  intro hc
  rw [Bool.and_eq_true] at hc
  exact h hc

lemma pick_best_stuck (s : Scheduler)
    (h : ∀ i, i < s.task_count → ¬ ((s.tasks i).is_runnable = true ∧
      (s.tasks i).can_run_on_core 0 = true)) :
    s.pick_best = (0, i32_min) := by
  unfold Scheduler.pick_best
  have hgen : ∀ (l : List Nat) (acc : Nat × Int),
      (∀ i ∈ l, i < s.task_count) → l.foldl (sched_candidate s) acc = acc := by
    intro l
    induction l with
    | nil => intro acc _; rfl
    | cons a l ih =>
        intro acc hl
        rw [List.foldl_cons,
          sched_candidate_skip s acc a (h a (hl a (List.mem_cons_self a l)))]
        exact ih acc (fun i hi => hl i (List.mem_cons_of_mem a hi))
  exact hgen _ _ (fun i hi => List.mem_range.mp hi)

/-! ## Lemmas about the state-update half of `Scheduler::schedule` -/

lemma schedule_mark_task_count (s : Scheduler) (b : Nat) :
    (s.schedule_mark b).task_count = s.task_count := rfl

lemma schedule_mark_current (s : Scheduler) (b : Nat) :
    (s.schedule_mark b).current_task = b := rfl

lemma schedule_mark_needs (s : Scheduler) (b : Nat) :
    (s.schedule_mark b).needs_reschedule = false := rfl

lemma schedule_mark_best_state (s : Scheduler) (b : Nat) (hb : b < s.task_count) :
    ((s.schedule_mark b).tasks b).state = TaskState.Running := by
  simp [Scheduler.schedule_mark, hb]

lemma schedule_mark_best_tslr (s : Scheduler) (b : Nat) (hb : b < s.task_count) :
    ((s.schedule_mark b).tasks b).payoff.ticks_since_last_run = 0 := by
  simp [Scheduler.schedule_mark, hb]

lemma schedule_mark_best_active (s : Scheduler) (b : Nat) (hb : b < s.task_count) :
    ((s.schedule_mark b).tasks b).active = (s.tasks b).active := by
  by_cases hd : b = s.current_task ∧ s.current_task < s.task_count ∧
      (s.tasks s.current_task).state = TaskState.Running
  · obtain ⟨hd1, hd2, hd3⟩ := hd
    simp [Scheduler.schedule_mark, hb, hd1, hd2, hd3]
  · simp [Scheduler.schedule_mark, hb, hd]

lemma schedule_mark_other (s : Scheduler) (b j : Nat) (hj1 : ¬ j = b)
    (hj2 : ¬ j = s.current_task) :
    (s.schedule_mark b).tasks j = s.tasks j := by
  simp only [Scheduler.schedule_mark]
  rw [if_neg (fun hc => hj1 hc.1), if_neg (fun hc => hj2 hc.1)]

lemma schedule_mark_demote (s : Scheduler) (b : Nat)
    (hne : ¬ s.current_task = b) (hc : s.current_task < s.task_count)
    (hr : (s.tasks s.current_task).state = TaskState.Running) :
    ((s.schedule_mark b).tasks s.current_task).state = TaskState.Ready := by
  simp [Scheduler.schedule_mark, hne, hc, hr]

lemma schedule_mark_prev_untouched (s : Scheduler) (b : Nat)
    (hne : ¬ s.current_task = b)
    (hnd : ¬ (s.current_task < s.task_count ∧
      (s.tasks s.current_task).state = TaskState.Running)) :
    (s.schedule_mark b).tasks s.current_task = s.tasks s.current_task := by
  simp only [Scheduler.schedule_mark]
  rw [if_neg (fun hcond => hne hcond.1)]
  rw [if_neg (fun hcond => hnd ⟨hcond.2.1, hcond.2.2⟩)]

lemma schedule_fst (s : Scheduler) : s.schedule.1 = s.pick_best.1 := rfl

lemma schedule_snd (s : Scheduler) :
    s.schedule.2 = s.schedule_mark s.pick_best.1 := rfl

lemma i32_min_neg : i32_min < 0 := by decide

/-- C3 (amended): because `schedule` marks the selected task Running and the
selection scan only considers Ready tasks, two successive `schedule` calls
can only return the same task id when that id is the idle fallback, slot 0. -/
theorem schedule_repeat_only_idle (s : Scheduler)
    (h : s.schedule.2.schedule.1 = s.schedule.1) : s.schedule.1 = 0 := by
  rw [schedule_fst]
  rcases pick_best_good s.schedule.2 with h2 | ⟨hlt2, hrun2, _, _⟩
  · -- the second scan found nothing: it returned slot 0
    rw [schedule_fst, h2] at h
    exact h.symm
  · -- the second scan selected a Ready task, which cannot be the first's
    -- selection (now Running)
    rcases pick_best_good s with h1 | ⟨hlt1, _, _, _⟩
    · rw [h1]
    · exfalso
      rw [schedule_fst] at h
      have hready := runnable_state _ hrun2
      rw [h, schedule_snd, schedule_fst] at hready
      rw [schedule_mark_best_state s s.pick_best.1 hlt1] at hready
      exact TaskState.noConfusion hready

/-- Witness for C3 (amended) at the fresh scheduler: both calls return 0. -/
theorem schedule_repeat_only_idle_witness : Scheduler.new.schedule.1 = 0 :=
  schedule_repeat_only_idle Scheduler.new (by decide)

/-- C4 (amended): on a scheduler state with `0 < task_count ≤ MAX_TASKS`,
`current_task < task_count`, and every Running slot equal to `current_task`
(the reachable-state invariant), `schedule` establishes: the returned index
is 0 when no task in `[0, task_count)` is runnable and core-0-affine; when
one is, the returned slot is active and Running; no slot other than the
returned one is Running afterwards; the returned index is the new
`current_task`; `needs_reschedule` is cleared; the selected task's
`ticks_since_last_run` is zeroed; a previously Running current task that was
not re-selected is demoted to Ready; and every slot other than the selection
and the previous current task is untouched. -/
theorem schedule_postcondition (s : Scheduler)
    (hn : 0 < s.task_count)
    (hcur : s.current_task < s.task_count)
    (hrun : ∀ i, i < MAX_TASKS → (s.tasks i).state = TaskState.Running →
      i = s.current_task) :
    ((¬ ∃ i, i < s.task_count ∧ (s.tasks i).is_runnable = true ∧
        (s.tasks i).can_run_on_core 0 = true) → s.schedule.1 = 0) ∧
    ((∃ i, i < s.task_count ∧ (s.tasks i).is_runnable = true ∧
        (s.tasks i).can_run_on_core 0 = true) →
      (s.schedule.2.tasks s.schedule.1).active = true) ∧
    (s.schedule.2.tasks s.schedule.1).state = TaskState.Running ∧
    (∀ j, j < MAX_TASKS → (s.schedule.2.tasks j).state = TaskState.Running →
      j = s.schedule.1) ∧
    s.schedule.2.current_task = s.schedule.1 ∧
    s.schedule.2.needs_reschedule = false ∧
    (s.schedule.2.tasks s.schedule.1).payoff.ticks_since_last_run = 0 ∧
    (s.current_task ≠ s.schedule.1 →
      (s.tasks s.current_task).state = TaskState.Running →
      (s.schedule.2.tasks s.current_task).state = TaskState.Ready) ∧
    (∀ j, j ≠ s.schedule.1 → j ≠ s.current_task →
      s.schedule.2.tasks j = s.tasks j) := by
  have hblt : s.schedule.1 < s.task_count := by
    rw [schedule_fst]
    rcases pick_best_good s with h1 | ⟨hlt, _, _, _⟩
    · rw [h1]
      exact hn
    · exact hlt
  refine ⟨?_, ?_, ?_, ?_, ?_, ?_, ?_, ?_, ?_⟩
  · intro hno
    rw [schedule_fst, pick_best_stuck s]
    intro i hi hcontra
    exact hno ⟨i, hi, hcontra.1, hcontra.2⟩
  · intro hex
    have hpos := pick_best_pos s hex
    rcases pick_best_good s with h1 | ⟨hlt, hrn, _, _⟩
    · rw [h1] at hpos
      exact absurd hpos (by decide)
    · rw [schedule_fst, schedule_snd,
        schedule_mark_best_active s s.pick_best.1 hlt]
      exact runnable_active _ hrn
  · rw [schedule_fst, schedule_snd]
    exact schedule_mark_best_state s s.pick_best.1 (schedule_fst s ▸ hblt)
  · intro j hj hrunning
    by_cases hjb : j = s.schedule.1
    · exact hjb
    · exfalso
      rw [schedule_snd] at hrunning
      by_cases hjc : j = s.current_task
      · have hne : ¬ s.current_task = s.pick_best.1 :=
          fun hc => hjb ((hjc.trans hc).trans (schedule_fst s).symm)
        rw [hjc] at hrunning
        by_cases hwas : (s.tasks s.current_task).state = TaskState.Running
        · rw [schedule_mark_demote s s.pick_best.1 hne hcur hwas] at hrunning
          exact TaskState.noConfusion hrunning
        · rw [schedule_mark_prev_untouched s s.pick_best.1 hne
            (fun hc => hwas hc.2)] at hrunning
          exact hwas hrunning
      · rw [schedule_mark_other s s.pick_best.1 j
          (fun hc => hjb (hc.trans (schedule_fst s).symm)) hjc] at hrunning
        exact hjc (hrun j hj hrunning)
  · rw [schedule_snd, schedule_fst]
    exact schedule_mark_current s s.pick_best.1
  · rw [schedule_snd]
    exact schedule_mark_needs s s.pick_best.1
  · rw [schedule_fst, schedule_snd]
    exact schedule_mark_best_tslr s s.pick_best.1 (schedule_fst s ▸ hblt)
  · intro hne hwas
    rw [schedule_snd]
    exact schedule_mark_demote s s.pick_best.1
      (fun hc => hne (hc.trans (schedule_fst s).symm)) hcur hwas
  · intro j hjb hjc
    rw [schedule_snd]
    exact schedule_mark_other s s.pick_best.1 j
      (fun hc => hjb (hc.trans (schedule_fst s).symm)) hjc

/-- C3 counterexample: on `sched_two`, the first `schedule` call returns
task 0; because it marks task 0 Running, the immediately following call
skips it and returns task 1 — two successive calls with no other state
change do not return the same id. -/
theorem schedule_repeat_counterexample :
    sched_two.schedule.1 = 0 ∧
      sched_two.schedule.2.schedule.1 = 1 ∧
      sched_two.schedule.2.schedule.1 ≠ sched_two.schedule.1 := by
  refine ⟨?_, ?_, ?_⟩ <;> decide

/-- C4 counterexample, two parts.  (1) On `sched_stray_running` a runnable
core-0 task exists (slot 0 is selected), yet after `schedule` both active
slots 0 and 1 are Running — "exactly one active TCB is Running" fails on
this (unreachable-invariant-violating) input state.  (2) On
`sched_zero_tasks` the fallback returns slot 0 but its
`ticks_since_last_run` is not zeroed, so the "additionally" clause also
fails when `task_count = 0`. -/
theorem schedule_postcondition_counterexample :
    ((sched_stray_running.tasks 0).is_runnable = true ∧
      (sched_stray_running.tasks 0).can_run_on_core 0 = true ∧
      sched_stray_running.schedule.1 = 0 ∧
      (sched_stray_running.schedule.2.tasks 0).state = TaskState.Running ∧
      (sched_stray_running.schedule.2.tasks 0).active = true ∧
      (sched_stray_running.schedule.2.tasks 1).state = TaskState.Running ∧
      (sched_stray_running.schedule.2.tasks 1).active = true) ∧
    (sched_zero_tasks.schedule.1 = 0 ∧
      (sched_zero_tasks.schedule.2.tasks 0).payoff.ticks_since_last_run = 7) := by
  refine ⟨⟨?_, ?_, ?_, ?_, ?_, ?_, ?_⟩, ?_, ?_⟩ <;> decide

/-- Witness for C4 (amended) on `sched_one`. -/
theorem schedule_postcondition_witness :
    (sched_one.schedule.2.tasks sched_one.schedule.1).state
        = TaskState.Running ∧
      sched_one.schedule.2.needs_reschedule = false ∧
      (sched_one.schedule.2.tasks sched_one.schedule.1).active = true := by
  have h := schedule_postcondition sched_one (by decide) (by decide) (by decide)
  exact ⟨h.2.2.1, h.2.2.2.2.2.1, h.2.1 ⟨0, by decide, by decide, by decide⟩⟩

lemma coopInv_tick_current (s : Scheduler) (h : CoopInv s) :
    CoopInv s.tick_current_phase := by
  intro i
  simp only [Scheduler.tick_current_phase]
  split_ifs with h1 h2 h3 h4 h5 <;>
    first
      | exact h i
      | (by_cases hj : i = s.current_task
         · simp only [if_pos hj, TaskControlBlock.record_overrun, coop_in_range]
           have := h s.current_task
           unfold coop_in_range at this
           constructor <;> omega
         · simp only [if_neg hj]
           exact h i)

lemma coopInv_starvation_count (s : Scheduler) (h : CoopInv s) :
    CoopInv s.starvation_count_phase := by
  intro i
  simp only [Scheduler.starvation_count_phase]
  split_ifs <;> exact h i

lemma coopInv_deadline_sweep (s : Scheduler) (h : CoopInv s) :
    CoopInv s.deadline_sweep := by
  intro i
  simp only [Scheduler.deadline_sweep, sweep_task]
  split_ifs <;> exact h i

lemma coopInv_update_system_metrics (s : Scheduler) (h : CoopInv s) :
    CoopInv s.update_system_metrics :=
  fun i => h i

lemma coopInv_recompute_payoffs (s : Scheduler) (h : CoopInv s) :
    CoopInv s.recompute_payoffs := by
  intro i
  simp only [Scheduler.recompute_payoffs]
  split_ifs <;> exact h i

lemma coopInv_strategy_phase (s : Scheduler) (h : CoopInv s) :
    CoopInv s.strategy_phase := by
  intro i
  unfold Scheduler.strategy_phase
  split_ifs with hc
  · exact h i
  · show coop_in_range (update_strategies s.tasks s.task_count i)
    unfold update_strategies
    split_ifs with hc2
    · simp only [update_strategy_task]
      split_ifs <;> exact h i
    · exact h i

lemma coopInv_starvation_boost_phase (s : Scheduler) (h : CoopInv s) :
    CoopInv s.starvation_boost_phase := by
  intro i
  simp only [Scheduler.starvation_boost_phase]
  split_ifs <;> exact h i

lemma coopInv_evaluate_game (s : Scheduler) (h : CoopInv s) :
    CoopInv s.evaluate_game :=
  coopInv_starvation_boost_phase _ (coopInv_strategy_phase _
    (coopInv_recompute_payoffs _ (coopInv_update_system_metrics _ h)))

lemma coopInv_tick (s : Scheduler) (h : CoopInv s) : CoopInv s.tick := by
  have h1 : CoopInv { s with tick_count := s.tick_count + 1 } := fun i => h i
  have h2 := coopInv_tick_current _ h1
  have h3 := coopInv_starvation_count _ h2
  have h4 := coopInv_deadline_sweep _ h3
  simp only [Scheduler.tick]
  split_ifs
  · exact coopInv_evaluate_game _ h4
  · exact h4

lemma coopInv_schedule (s : Scheduler) (h : CoopInv s) : CoopInv s.schedule.2 := by
  intro i
  rw [schedule_snd]
  simp only [Scheduler.schedule_mark]
  split_ifs <;> exact h _

lemma coopInv_yield_current (s : Scheduler) (h : CoopInv s) :
    CoopInv s.yield_current := by
  intro i
  simp only [Scheduler.yield_current]
  split_ifs with h1
  · by_cases hj : i = s.current_task
    · simp only [if_pos hj, TaskControlBlock.record_yield, coop_in_range]
      have := h s.current_task
      unfold coop_in_range at this
      constructor <;> omega
    · simp only [if_neg hj]
      exact h i
  · exact h i

lemma coopInv_create_task (s : Scheduler) (c : TaskConfig) (st : Strategy)
    (h : CoopInv s) : CoopInv (s.create_task c st).2 := by
  intro i
  simp only [Scheduler.create_task]
  split_ifs with h1
  · exact h i
  · by_cases hj : i = s.task_count
    · simp only [if_pos hj, TaskControlBlock.init, PayoffMetrics.new, coop_in_range]
      constructor <;> norm_num
    · simp only [if_neg hj]
      exact h i

lemma coopInv_step (s s' : Scheduler) (hstep : SchedStep s s') (h : CoopInv s) :
    CoopInv s' := by
  cases hstep with
  | tick => exact coopInv_tick _ h
  | schedule => exact coopInv_schedule _ h
  | yield_current => exact coopInv_yield_current _ h
  | create_task c st => exact coopInv_create_task _ c st h

lemma coopInv_new : CoopInv Scheduler.new := by
  intro i
  show coop_in_range TaskControlBlock.empty
  constructor <;> decide

/-- C6: in every reachable scheduler state, every TCB's cooperation score
lies in `[0, 500]`; it starts at 100; `record_yield` adds 10 clamped above
at 500 and `record_overrun` subtracts 20 clamped below at 0. -/
theorem cooperation_score_bounded (s : Scheduler) (h : Reachable s) :
    (∀ i, 0 ≤ (s.tasks i).payoff.cooperation_score ∧
      (s.tasks i).payoff.cooperation_score ≤ 500) ∧
    PayoffMetrics.new.cooperation_score = 100 ∧
    (∀ t : TaskControlBlock, (t.record_yield).payoff.cooperation_score
      = min (t.payoff.cooperation_score + 10) 500) ∧
    (∀ t : TaskControlBlock, (t.record_overrun).payoff.cooperation_score
      = max (t.payoff.cooperation_score - 20) 0) := by
  have hinv : CoopInv s := by
    induction h with
    | refl => exact coopInv_new
    | tail hab hbc ih => exact coopInv_step _ _ hbc ih
  exact ⟨fun i => hinv i, rfl, fun t => rfl, fun t => rfl⟩

/-- Witness for C6 on the reachable state after one `tick` from boot. -/
theorem cooperation_score_bounded_witness :
    0 ≤ (Scheduler.new.tick.tasks 0).payoff.cooperation_score ∧
      (Scheduler.new.tick.tasks 0).payoff.cooperation_score ≤ 500 :=
  (cooperation_score_bounded Scheduler.new.tick
    (Relation.ReflTransGen.single (SchedStep.tick Scheduler.new))).1 0

end EqOS
